import Mathlib

/-!
Verification development for the s3-multipart-upload repository.

The core of the program is the `checkpoint` package (`LocalCheckpoint` with
operations `New`, `Save`, `Complete`, `Seek`) and the per-file upload driver
`uploadFile` in `cmd/cli`.  We embed them shallowly:

* bytes are `Nat`, a source file is a `List Nat`;
* the checkpoint file is a list of `Line`s (line 1 the session id, then one
  line per completed part carrying integrity token, part number and size) —
  this models the on-disk CSV record at the record level;
* the remote S3 multipart API is modelled by an explicit `Remote` state:
  the sessions created and the part bodies stored (keyed by part number,
  last upload for a number wins, as in S3);
* fallible remote/file calls take explicit result arguments
  (`Except`/`Option`), so every code path of the Go source is a case of the
  Lean definition; `File.Sync()` is modelled as always succeeding (the Go
  code discards its error).
-/

namespace SMU

/-- A completed part as kept in `LocalCheckpoint.parts`
(`checkpoint.CompletedPart`, main.go:418-422): integrity token (ETag),
1-based part number, and recorded size in bytes. -/
structure CompletedPart where
  eTag : String
  partNumber : Nat
  size : Nat
deriving DecidableEq

/-- One line of the on-disk checkpoint record (spec section 6): line 1 is the
session id, each further line encodes one completed part as
`eTag,partNumber,size`. -/
inductive Line where
  | session (id : String)
  | part (eTag : String) (partNumber : Nat) (size : Nat)
deriving DecidableEq

/-- The text of a checkpoint line as the scanner would return it
(`fileScanner.Text()`); a part line renders as its comma-separated fields. -/
def lineText : Line → String
  | Line.session id => id
  | Line.part e n sz => e ++ "," ++ toString n ++ "," ++ toString sz

/-- The checkpoint line written by `Save` for a completed part
(main.go:530, `fmt.Sprintf("%s,%d,%d\n", ...)`). -/
def toLine (p : CompletedPart) : Line :=
  Line.part p.eTag p.partNumber p.size

/-- Parsing of one part line of an existing checkpoint (main.go:495-502):
`strconv.ParseInt` of the numeric fields; a line that is not a well-formed
part record makes `util.Must` panic, modelled as `none`. -/
def parseLine : Line → Option CompletedPart
  | Line.part e n sz => some ⟨e, n, sz⟩
  | Line.session _ => none

/-- The scan loop over the part lines of an existing checkpoint
(main.go:495-502): parts are accumulated in file order; the first
malformed line panics the process (modelled as `none`). -/
def parseLines : List Line → Option (List CompletedPart)
  | [] => some []
  | l :: rest =>
    match parseLine l, parseLines rest with
    | some p, some ps => some (p :: ps)
    | _, _ => none

/-- In-memory state of `checkpoint.LocalCheckpoint` (main.go:432-439):
the session id (`uploadID`, a `*string` that may be nil), the completed
parts, and the checkpoint file's content.  We distinguish the lines written
to the file handle (`bufferedLines`) from those forced to stable storage by
`Sync` (`durableLines`); only the latter survive a crash. -/
structure LocalCheckpoint where
  uploadID : Option String
  parts : List CompletedPart
  bufferedLines : List Line
  durableLines : List Line
deriving DecidableEq

/-- State of the remote multipart API for one destination object:
the session ids created by `CreateMultipartUpload`, and the part bodies
stored by `UploadPart`, keyed by part number (appended in call order). -/
structure Remote where
  created : List String
  stored : List (Nat × List Nat)
deriving DecidableEq

/-- The `LocalCheckpoint` value returned by `checkpoint.New` on the
create path (main.go:474-486): empty parts list, fresh session id written
as line 1 of the checkpoint file and synced. -/
def freshSession (sid : String) (r : Remote) : LocalCheckpoint × Remote :=
  ({ uploadID := some sid
     parts := []
     bufferedLines := [Line.session sid]
     durableLines := [Line.session sid] },
   { r with created := r.created ++ [sid] })

/-- `checkpoint.New` (main.go:445-506).  `fsFile` is the state of the
checkpoint file on disk (`none` = does not exist).  `sid` is the session id
the remote would hand out on `CreateMultipartUpload`.  Result `none` models
the fatal/panic paths (checkpoint corruption).  Paths:
if the open fails with not-exist, create the file, create a remote session
and write the session id line (then `Sync`); if the file exists and is
non-empty, parse line 1 as the session id and the remaining lines as parts;
if the file exists but is empty (`Stat().Size() == 0`), the parse is
skipped and the zero-value checkpoint (nil `uploadID`, no parts) is
returned — no remote session is created and nothing is written. -/
def New (fsFile : Option (List Line)) (sid : String) (r : Remote) :
    Option (LocalCheckpoint × Remote) :=
  match fsFile with
  | none => some (freshSession sid r)
  | some lines =>
    match lines with
    | [] =>
      some ({ uploadID := none
              parts := []
              bufferedLines := []
              durableLines := [] }, r)
    | first :: rest =>
      match parseLines rest with
      | some ps =>
        some ({ uploadID := some (lineText first)
                parts := ps
                bufferedLines := first :: rest
                durableLines := first :: rest }, r)
      | none => none

/-- Errors `LocalCheckpoint.Save` can return: the remote `UploadPart`
failed, or the write to the checkpoint file failed. -/
inductive SaveErr where
  | uploadFailed (msg : String)
  | writeFailed (msg : String)
deriving DecidableEq

/-- `LocalCheckpoint.Save` (main.go:508-536).  Assigns
`partNumber = len(cp.parts) + 1`, calls `UploadPart` with the whole buffer
(`uploadRes` is its result: an integrity token or an error), and on success
appends the `CompletedPart` — with `Size = len(*buf)` — to the in-memory
list, then writes the part line to the checkpoint file (`writeRes`: `none`
= success) and syncs it.  Note the order in the source: the part is
appended to `cp.parts` before the file write is attempted. -/
def Save (cp : LocalCheckpoint) (r : Remote) (buf : List Nat)
    (uploadRes : Except String String) (writeRes : Option String) :
    LocalCheckpoint × Remote × Option SaveErr :=
  let partNumber := cp.parts.length + 1
  match uploadRes with
  | Except.error e => (cp, r, some (SaveErr.uploadFailed e))
  | Except.ok etag =>
    let r := { r with stored := r.stored ++ [(partNumber, buf)] }
    let p : CompletedPart := ⟨etag, partNumber, buf.length⟩
    let cp := { cp with parts := cp.parts ++ [p] }
    match writeRes with
    | some e => (cp, r, some (SaveErr.writeFailed e))
    | none =>
      let cp := { cp with bufferedLines := cp.bufferedLines ++ [toLine p] }
      let cp := { cp with durableLines := cp.bufferedLines }
      (cp, r, none)

/-- The offset handed to `file.Seek(…, io.SeekStart)` by
`LocalCheckpoint.Seek` (main.go:565-573): the running total of the
recorded part sizes, accumulated by the source's loop. -/
def Seek (cp : LocalCheckpoint) : Nat :=
  List.foldl (fun acc p => acc + p.size) 0 cp.parts

/-- A part as sent to `CompleteMultipartUpload` (`s3.CompletedPart`):
integrity token and part number only (`toS3CompletedPart`, main.go:585-590). -/
structure S3CompletedPart where
  eTag : String
  partNumber : Nat
deriving DecidableEq

/-- `toS3CompletedParts` (main.go:576-582): the append loop over
`cp.parts`, i.e. an order-preserving map dropping the size. -/
def toS3CompletedParts (ps : List CompletedPart) : List S3CompletedPart :=
  ps.map fun p => ⟨p.eTag, p.partNumber⟩

/-- Result of the remote `CompleteMultipartUpload` call as the Go code
inspects it: success, an `awserr.Error` carrying a code, or a non-nil
error that is not an `awserr.Error` (the type assertion fails). -/
inductive CompleteRemoteResult where
  | ok
  | awsError (code : String)
  | plainError (msg : String)
deriving DecidableEq

/-- `s3.ErrCodeNoSuchUpload`. -/
def errCodeNoSuchUpload : String := "NoSuchUpload"

/-- `LocalCheckpoint.Complete` (main.go:538-563): sends
`toS3CompletedParts cp.parts` to the remote finalize call, then handles its
result: an `awserr.Error` with code `NoSuchUpload` is logged as a warning
and `nil` is returned; any other `awserr.Error` is returned to the caller;
otherwise (success — or an error that is not an `awserr.Error`, for which
the type assertion fails) the success message is logged and `nil` is
returned.  The first component is the part list sent, the second the
returned error. -/
def Complete (cp : LocalCheckpoint) (res : CompleteRemoteResult) :
    List S3CompletedPart × Option String :=
  (toS3CompletedParts cp.parts,
   match res with
   | CompleteRemoteResult.awsError code =>
     if code = errCodeNoSuchUpload then none else some code
   | _ => none)

/-- The buffer `uploadFile` passes to `Save` for the chunk at byte offset
`pos` (part_000:80-82): Go allocates a zeroed buffer of the configured part
size and `file.Read` fills its first `n = min s (len - pos)` bytes; the
whole buffer — zero padding included — is what `Save` receives. -/
def chunkAt (file : List Nat) (s pos : Nat) : List Nat :=
  let n := min s (file.length - pos)
  (file.drop pos).take n ++ List.replicate (s - n) 0

/-- The read/upload loop of `uploadFile` (part_000:79-94), on the happy
path (each `Save` succeeds; the driver calls `Error.Fatal` on a `Save`
error, so an erroring run has no further steps).  `etags` gives the
integrity token the remote returns for each part number.  The fuel
argument bounds the number of iterations; with fuel at least
`file.length + 1` it never runs out (each iteration consumes at least one
byte), and running it with smaller fuel K is exactly a run interrupted
after K successful, durably checkpointed parts. -/
def runLoopF (file : List Nat) (s : Nat) (etags : Nat → String) :
    Nat → LocalCheckpoint × Remote × Nat → LocalCheckpoint × Remote × Nat
  | 0, st => st
  | fuel + 1, (cp, r, pos) =>
    let n := min s (file.length - pos)
    if n = 0 then (cp, r, pos)
    else
      let out := Save cp r (chunkAt file s pos)
        (Except.ok (etags (cp.parts.length + 1))) none
      runLoopF file s etags fuel (out.1, out.2.1, pos + n)

/-- Fuel that is always sufficient for `runLoopF` from offset 0. -/
def driverFuel (file : List Nat) : Nat :=
  file.length + 1

/-- `uploadFile` (part_000:68-96): open the checkpoint (`New`), seek the
source file to the resume offset (`Seek`), run the part loop to
exhaustion, and return the final checkpoint and remote state (on which
`Complete` is then called).  `none` models the fatal paths of `New`. -/
def uploadFile (file : List Nat) (s : Nat) (etags : Nat → String)
    (fsFile : Option (List Line)) (sid : String) (r : Remote) :
    Option (LocalCheckpoint × Remote) :=
  match New fsFile sid r with
  | none => none
  | some (cp, r) =>
    let st := runLoopF file s etags (driverFuel file) (cp, r, Seek cp)
    some (st.1, st.2.1)

/-- The body stored remotely for a part number: the last `UploadPart` for
that number wins, as in S3. -/
def lookupPart (stored : List (Nat × List Nat)) (n : Nat) : List Nat :=
  match stored.reverse.find? (fun q => q.1 == n) with
  | some q => q.2
  | none => []

/-- The bytes of the finalized remote object: the concatenation of the
stored bodies of the parts listed in the completion call, in list order. -/
def assemble (stored : List (Nat × List Nat)) (ps : List S3CompletedPart) :
    List Nat :=
  (ps.map fun p => lookupPart stored p.partNumber).flatten

/-- The final object produced by a driver run: what `Complete` references
(`toS3CompletedParts` of the final parts list) assembled from the remote
store. -/
def finalObject : Option (LocalCheckpoint × Remote) → List Nat
  | some (cp, r) => assemble r.stored (toS3CompletedParts cp.parts)
  | none => []

/-- The parts list of a driver run's final checkpoint state. -/
def finalParts : Option (LocalCheckpoint × Remote) → List CompletedPart
  | some (cp, _) => cp.parts
  | none => []

/-- Outcome of the per-file goroutine the orchestrator spawns
(part_000:55-59): it runs `uploadFile` and, when the returned error is
non-nil, calls `Error.Panic(err)`; an unrecovered panic in any goroutine
terminates the whole Go process.  `true` means the goroutine panics. -/
def goroutinePanics (uploadErr : Option String) : Bool :=
  match uploadErr with
  | some _ => true
  | none => false

/-- Whether an orchestrator run over a list of files (given each file's
upload error, `none` = success) is aborted before all tasks finish: the
process dies as soon as any goroutine panics. -/
def runAborted (uploadErrs : List (Option String)) : Bool :=
  uploadErrs.any goroutinePanics

/-- A sequence of successful `Save` calls applied to a checkpoint state:
each element gives the buffer and the integrity token the remote returns. -/
def applySaves : LocalCheckpoint × Remote → List (List Nat × String) → LocalCheckpoint × Remote
  | st, [] => st
  | (cp, r), (buf, etag) :: rest =>
    let out := Save cp r buf (Except.ok etag) none
    applySaves (out.1, out.2.1) rest

/-- Spec-side description of the parts a driver run uploads, written from
the spec's words for the completion call: starting after `count` completed
parts at byte offset `pos`, the run contributes parts numbered
`count + 1`, `count + 2`, … in upload order, each carrying the integrity
token the remote returned for it, until the file is exhausted (`fuel`
bounds the iterations exactly as in `runLoopF`). -/
def specNewS3Parts (s : Nat) (etags : Nat → String) (L : Nat) :
    Nat → Nat → Nat → List S3CompletedPart
  | 0, _, _ => []
  | fuel + 1, count, pos =>
    let n := min s (L - pos)
    if n = 0 then []
    else ⟨etags (count + 1), count + 1⟩
      :: specNewS3Parts s etags L fuel (count + 1) (pos + n)

/-- A run that crashed after `K` parts were durably checkpointed: the
driver is started with no checkpoint (fresh session `sid`) and performs
exactly `K` iterations of the part loop; what survives the crash is the
durable checkpoint file and the remote state. -/
def crashedState (file : List Nat) (s : Nat) (etags : Nat → String)
    (sid : String) (r0 : Remote) (K : Nat) : LocalCheckpoint × Remote × Nat :=
  runLoopF file s etags K ((freshSession sid r0).1, (freshSession sid r0).2, 0)

/-- Re-running the driver after a crash: `uploadFile` against the durable
checkpoint file and the remote state left by `crashedState`. -/
def resumedRun (file : List Nat) (s : Nat) (etags : Nat → String)
    (sid sid2 : String) (r0 : Remote) (K : Nat) :
    Option (LocalCheckpoint × Remote) :=
  uploadFile file s etags (some (crashedState file s etags sid r0 K).1.durableLines)
    sid2 (crashedState file s etags sid r0 K).2.1

/-- An uninterrupted driver run starting with no checkpoint. -/
def uninterruptedRun (file : List Nat) (s : Nat) (etags : Nat → String)
    (sid : String) (r0 : Remote) : Option (LocalCheckpoint × Remote) :=
  uploadFile file s etags none sid r0

/-! ### Helper lemmas -/

/-- A successful `Save` in explicit form. -/
theorem Save_ok_eq (cp : LocalCheckpoint) (r : Remote) (buf : List Nat) (etag : String) :
    Save cp r buf (Except.ok etag) none =
      ({ cp with
          parts := cp.parts ++ [⟨etag, cp.parts.length + 1, buf.length⟩]
          bufferedLines := cp.bufferedLines
            ++ [Line.part etag (cp.parts.length + 1) buf.length]
          durableLines := cp.bufferedLines
            ++ [Line.part etag (cp.parts.length + 1) buf.length] },
       { r with stored := r.stored ++ [(cp.parts.length + 1, buf)] }, none) := rfl

theorem foldl_add_size (l : List CompletedPart) (a : Nat) :
    List.foldl (fun acc p => acc + p.size) a l = a + (l.map CompletedPart.size).sum := by
  induction l generalizing a with
  | nil => simp
  | cons p t ih => simp [ih, Nat.add_assoc]

theorem applySaves_partNumbers (l : List (List Nat × String)) (cp : LocalCheckpoint) (r : Remote) :
    ((applySaves (cp, r) l).1.parts.map CompletedPart.partNumber)
      = cp.parts.map CompletedPart.partNumber
        ++ List.range' (cp.parts.length + 1) l.length := by
  induction l generalizing cp r with
  | nil => simp [applySaves]
  | cons be rest ih =>
    obtain ⟨buf, etag⟩ := be
    have step :
        applySaves (cp, r) ((buf, etag) :: rest)
          = applySaves
              ((Save cp r buf (Except.ok etag) none).1,
               (Save cp r buf (Except.ok etag) none).2.1) rest := rfl
    rw [step, Save_ok_eq]
    rw [ih]
    simp [List.range'_succ, Nat.add_assoc]

/-- Unfolding of one loop iteration. -/
theorem runLoopF_succ (file : List Nat) (s : Nat) (etags : Nat → String)
    (fuel : Nat) (cp : LocalCheckpoint) (r : Remote) (pos : Nat) :
    runLoopF file s etags (fuel + 1) (cp, r, pos) =
      if min s (file.length - pos) = 0 then (cp, r, pos)
      else
        runLoopF file s etags fuel
          ((Save cp r (chunkAt file s pos)
              (Except.ok (etags (cp.parts.length + 1))) none).1,
           (Save cp r (chunkAt file s pos)
              (Except.ok (etags (cp.parts.length + 1))) none).2.1,
           pos + min s (file.length - pos)) := rfl

/-- When the next read returns zero bytes the loop is a no-op for any fuel. -/
theorem runLoopF_stop (file : List Nat) (s : Nat) (etags : Nat → String)
    (fuel : Nat) (cp : LocalCheckpoint) (r : Remote) (pos : Nat)
    (h : min s (file.length - pos) = 0) :
    runLoopF file s etags fuel (cp, r, pos) = (cp, r, pos) := by
  cases fuel with
  | zero => rfl
  | succ f => rw [runLoopF_succ, if_pos h]

/-- Running `a + b` iterations is running `a`, then `b` from where it left
off: fuel-interruption composes. -/
theorem runLoopF_add (file : List Nat) (s : Nat) (etags : Nat → String)
    (a b : Nat) (st : LocalCheckpoint × Remote × Nat) :
    runLoopF file s etags (a + b) st
      = runLoopF file s etags b (runLoopF file s etags a st) := by
  induction a generalizing st with
  | zero => rw [Nat.zero_add]; rfl
  | succ a ih =>
    obtain ⟨cp, r, pos⟩ := st
    rw [Nat.succ_add, runLoopF_succ, runLoopF_succ]
    by_cases h : min s (file.length - pos) = 0
    · rw [if_pos h, if_pos h, runLoopF_stop file s etags b cp r pos h]
    · rw [if_neg h, if_neg h, ih]

/-- Adding one unit of fuel changes nothing once the fuel covers the bytes
left to read. -/
theorem runLoopF_fuel_succ (file : List Nat) (s : Nat) (etags : Nat → String) :
    ∀ (f : Nat) (cp : LocalCheckpoint) (r : Remote) (pos : Nat),
      file.length - pos + 1 ≤ f →
      runLoopF file s etags f (cp, r, pos)
        = runLoopF file s etags (f + 1) (cp, r, pos) := by
  intro f
  induction f with
  | zero => intro cp r pos h; omega
  | succ f ih =>
    intro cp r pos h
    rw [runLoopF_succ, runLoopF_succ file s etags (f + 1) cp r pos]
    by_cases h0 : min s (file.length - pos) = 0
    · rw [if_pos h0, if_pos h0]
    · rw [if_neg h0, if_neg h0]
      apply ih
      have h1 : min s (file.length - pos) ≤ file.length - pos := Nat.min_le_right _ _
      omega

/-- Extra fuel beyond a sufficient amount is irrelevant. -/
theorem runLoopF_fuel_add (file : List Nat) (s : Nat) (etags : Nat → String)
    (k f : Nat) (cp : LocalCheckpoint) (r : Remote) (pos : Nat)
    (h : file.length - pos + 1 ≤ f) :
    runLoopF file s etags (f + k) (cp, r, pos)
      = runLoopF file s etags f (cp, r, pos) := by
  induction k with
  | zero => rfl
  | succ k ih =>
    have hk : file.length - pos + 1 ≤ f + k := by omega
    have := runLoopF_fuel_succ file s etags (f + k) cp r pos hk
    rw [← Nat.add_assoc] at *
    rw [← this, ih]

/-- The loop appends exactly the spec-side part list (at the granularity
`Complete` sends): the final parts, projected to `(eTag, partNumber)`,
are the initial parts followed by the run's new parts in upload order. -/
theorem runLoopF_s3parts (file : List Nat) (s : Nat) (etags : Nat → String) :
    ∀ (fuel : Nat) (cp : LocalCheckpoint) (r : Remote) (pos : Nat),
      toS3CompletedParts (runLoopF file s etags fuel (cp, r, pos)).1.parts
        = toS3CompletedParts cp.parts
          ++ specNewS3Parts s etags file.length fuel cp.parts.length pos := by
  intro fuel
  induction fuel with
  | zero => intro cp r pos; simp [runLoopF, specNewS3Parts]
  | succ fuel ih =>
    intro cp r pos
    rw [runLoopF_succ]
    by_cases h0 : min s (file.length - pos) = 0
    · rw [if_pos h0]
      simp [specNewS3Parts, h0]
    · rw [if_neg h0, Save_ok_eq]
      rw [ih]
      simp only [specNewS3Parts, h0, if_neg h0]
      simp [toS3CompletedParts, List.append_assoc]

/-- Length of the buffer handed to `Save`: always the configured part
size (Go allocates `make([]byte, partSize)` and never truncates it). -/
theorem chunkAt_length (file : List Nat) (s pos : Nat) :
    (chunkAt file s pos).length = s := by
  simp only [chunkAt, List.length_append, List.length_take, List.length_drop,
    List.length_replicate]
  omega

/-- Invariant of every state of a driver run on a fresh session `sid`:
the session id is recorded, the buffered checkpoint lines are exactly the
session line followed by one line per completed part (all synced), every
recorded size is the configured part size, and the byte position either
equals `partSize * number of parts` while still inside the file, or the
file is exhausted both at the real position and at the recorded offset. -/
def GoodState (L s : Nat) (sid : String) (st : LocalCheckpoint × Remote × Nat) : Prop :=
  st.1.uploadID = some sid
  ∧ st.1.bufferedLines = Line.session sid :: st.1.parts.map toLine
  ∧ st.1.durableLines = st.1.bufferedLines
  ∧ (∀ p ∈ st.1.parts, p.size = s)
  ∧ ((st.2.2 = s * st.1.parts.length ∧ st.2.2 ≤ L)
     ∨ (min s (L - st.2.2) = 0 ∧ min s (L - s * st.1.parts.length) = 0))

theorem goodState_init (file : List Nat) (s : Nat) (sid : String) (r0 : Remote) :
    GoodState file.length s sid
      ((freshSession sid r0).1, (freshSession sid r0).2, 0) := by
  refine ⟨rfl, rfl, rfl, by simp [freshSession], Or.inl ⟨by simp [freshSession], Nat.zero_le _⟩⟩

theorem goodState_run (file : List Nat) (s : Nat) (etags : Nat → String)
    (sid : String) (K : Nat) :
    ∀ st : LocalCheckpoint × Remote × Nat, GoodState file.length s sid st →
      GoodState file.length s sid (runLoopF file s etags K st) := by
  induction K with
  | zero => intro st h; exact h
  | succ K ih =>
    rintro ⟨cp, r, pos⟩ h
    rw [runLoopF_succ]
    by_cases h0 : min s (file.length - pos) = 0
    · rw [if_pos h0]; exact h
    · rw [if_neg h0, Save_ok_eq]
      apply ih
      obtain ⟨huid, hbuf, hdur, hsz, hpos⟩ := h
      simp only at huid hbuf hdur hsz hpos
      have hlen : (chunkAt file s pos).length = s := chunkAt_length file s pos
      refine ⟨huid, ?_, ?_, ?_, ?_⟩
      · simp [hbuf, toLine, hlen]
      · rfl
      · intro p hp
        simp only [List.mem_append, List.mem_singleton] at hp
        rcases hp with hp | hp
        · exact hsz p hp
        · rw [hp]; exact hlen
      · simp only [List.length_append, List.length_singleton]
        have hn1 : min s (file.length - pos) ≤ s := Nat.min_le_left _ _
        have hn2 : min s (file.length - pos) ≤ file.length - pos := Nat.min_le_right _ _
        have hmul : s * (cp.parts.length + 1) = s * cp.parts.length + s := by
          rw [Nat.mul_add, Nat.mul_one]
        rcases hpos with ⟨hp1, hp2⟩ | ⟨hp1, hp2⟩
        · by_cases hfull : min s (file.length - pos) = s
          · left
            refine ⟨?_, ?_⟩
            · omega
            · omega
          · right
            refine ⟨?_, ?_⟩
            · have he : pos + min s (file.length - pos) = file.length := by omega
              simp [he]
            · have he : file.length - s * (cp.parts.length + 1) = 0 := by omega
              simp [he]
        · exact absurd hp1 h0

theorem sum_sizes_const (s : Nat) :
    ∀ l : List CompletedPart, (∀ p ∈ l, p.size = s) →
      (l.map CompletedPart.size).sum = s * l.length := by
  intro l
  induction l with
  | nil => intro _; simp
  | cons p t ih =>
    intro h
    have hp : p.size = s := h p (List.mem_cons_self p t)
    have ht := ih fun q hq => h q (List.mem_cons_of_mem p hq)
    simp only [List.map_cons, List.sum_cons, List.length_cons, ht, hp, Nat.mul_succ]
    omega

/-- Parsing the part lines written by `Save` recovers exactly the parts. -/
theorem parseLines_roundtrip :
    ∀ ps : List CompletedPart, parseLines (ps.map toLine) = some ps := by
  intro ps
  induction ps with
  | nil => rfl
  | cons p t ih => simp [parseLines, toLine, parseLine, ih]

/-- Opening the checkpoint file a crashed run left behind restores the
session id and the full parts list. -/
theorem New_roundtrip (sid sid2 : String) (ps : List CompletedPart) (r : Remote) :
    New (some (Line.session sid :: ps.map toLine)) sid2 r
      = some ({ uploadID := some sid
                parts := ps
                bufferedLines := Line.session sid :: ps.map toLine
                durableLines := Line.session sid :: ps.map toLine }, r) := by
  simp [New, parseLines_roundtrip, lineText]

/-- Restarting the driver against the durable checkpoint of any reachable
crashed state continues exactly where the crashed run stopped: it yields
the same final checkpoint and remote state as letting the loop continue
in-memory from that state. -/
theorem resume_from_good (file : List Nat) (s : Nat) (etags : Nat → String)
    (sid sid2 : String) (cp : LocalCheckpoint) (r : Remote) (pos : Nat)
    (h : GoodState file.length s sid (cp, r, pos)) :
    uploadFile file s etags (some cp.durableLines) sid2 r
      = some ((runLoopF file s etags (driverFuel file) (cp, r, pos)).1,
              (runLoopF file s etags (driverFuel file) (cp, r, pos)).2.1) := by
  obtain ⟨huid, hbuf, hdur, hsz, hpos⟩ := h
  obtain ⟨uid, parts, bls, dls⟩ := cp
  simp only at huid hbuf hdur hsz hpos
  subst huid
  subst hbuf
  subst hdur
  have hseek :
      Seek { uploadID := some sid, parts := parts,
             bufferedLines := Line.session sid :: parts.map toLine,
             durableLines := Line.session sid :: parts.map toLine }
        = s * parts.length := by
    rw [Seek, foldl_add_size, sum_sizes_const s parts hsz]
    omega
  have hnew :
      uploadFile file s etags (some (Line.session sid :: parts.map toLine)) sid2 r
        = some ((runLoopF file s etags (driverFuel file)
            ({ uploadID := some sid, parts := parts,
               bufferedLines := Line.session sid :: parts.map toLine,
               durableLines := Line.session sid :: parts.map toLine }, r,
             s * parts.length)).1,
           (runLoopF file s etags (driverFuel file)
            ({ uploadID := some sid, parts := parts,
               bufferedLines := Line.session sid :: parts.map toLine,
               durableLines := Line.session sid :: parts.map toLine }, r,
             s * parts.length)).2.1) := by
    rw [uploadFile, New_roundtrip sid sid2 parts r]
    rw [← hseek]
  rw [hnew]
  rcases hpos with ⟨hp1, hp2⟩ | ⟨hp1, hp2⟩
  · rw [hp1]
  · rw [runLoopF_stop file s etags _ _ _ _ hp2, runLoopF_stop file s etags _ _ _ _ hp1]

/-! ### Claim theorems -/

/-- C8 (confirmed): the offset at which `Seek` positions the source-file
cursor equals the exact sum of the recorded sizes of all currently
recorded completed parts. -/
theorem seek_eq_sum_recorded_sizes (cp : LocalCheckpoint) :
    Seek cp = (cp.parts.map CompletedPart.size).sum := by
  simpa using foldl_add_size cp.parts 0

/-- C10 (confirmed): when the remote `UploadPart` call fails, `Save`
returns that error and leaves the whole checkpoint state (in-memory parts
list, buffered and durable file lines) and the remote state unchanged, so
the next `Save` reuses the same part number and the resume offset is
unaffected. -/
theorem save_upload_error_state_unchanged (cp : LocalCheckpoint) (r : Remote)
    (buf : List Nat) (m : String) (w : Option String) :
    Save cp r buf (Except.error m) w = (cp, r, some (SaveErr.uploadFailed m)) := rfl

/-- C6 counterexample: a `Save` whose remote upload succeeds but whose
checkpoint-file write fails returns an error, yet the part has already
been appended to the in-memory parts list — so a part can count toward
resume state (resume offset, part numbering, `Complete`) even though
`Save` did not return successfully. -/
theorem save_write_failure_still_counts_part :
    (Save (freshSession "S" { created := [], stored := [] }).1
        (freshSession "S" { created := [], stored := [] }).2
        [7, 7] (Except.ok "E1") (some "disk full")).2.2
      = some (SaveErr.writeFailed "disk full")
    ∧ (Save (freshSession "S" { created := [], stored := [] }).1
        (freshSession "S" { created := [], stored := [] }).2
        [7, 7] (Except.ok "E1") (some "disk full")).1.parts
      = [⟨"E1", 1, 2⟩] := ⟨rfl, rfl⟩

/-- C6 (corrected): every successful `Save` appends the part's record
(integrity token, part number, size) to the checkpoint file and forces it
to stable storage before returning, and on a failed remote upload the
state is unchanged; but when the upload succeeds and the file write fails,
`Save` returns the error with the part already appended to the in-memory
parts list (and nothing added to the file). -/
theorem save_durability_amended (cp : LocalCheckpoint) (r : Remote)
    (buf : List Nat) (etag m : String) (w : Option String) :
    Save cp r buf (Except.ok etag) none =
      ({ cp with
          parts := cp.parts ++ [⟨etag, cp.parts.length + 1, buf.length⟩]
          bufferedLines := cp.bufferedLines
            ++ [toLine ⟨etag, cp.parts.length + 1, buf.length⟩]
          durableLines := cp.bufferedLines
            ++ [toLine ⟨etag, cp.parts.length + 1, buf.length⟩] },
       { r with stored := r.stored ++ [(cp.parts.length + 1, buf)] }, none)
    ∧ Save cp r buf (Except.error m) w = (cp, r, some (SaveErr.uploadFailed m))
    ∧ Save cp r buf (Except.ok etag) (some m) =
      ({ cp with parts := cp.parts ++ [⟨etag, cp.parts.length + 1, buf.length⟩] },
       { r with stored := r.stored ++ [(cp.parts.length + 1, buf)] },
       some (SaveErr.writeFailed m)) :=
  ⟨rfl, rfl, rfl⟩

/-- C7 (confirmed): in every checkpoint state reachable by a sequence of
successful `Save` calls on a freshly created session, the recorded part
numbers form the contiguous sequence 1..N with no duplicates or gaps, and
each `Save` assigns part number `count of already-completed parts + 1`. -/
theorem part_numbers_contiguous (sid : String) (r0 : Remote)
    (l : List (List Nat × String)) :
    ((applySaves (freshSession sid r0) l).1.parts.map CompletedPart.partNumber)
      = List.range' 1 l.length
    ∧ (∀ (cp : LocalCheckpoint) (r : Remote) (buf : List Nat) (etag : String),
        (Save cp r buf (Except.ok etag) none).1.parts
          = cp.parts ++ [⟨etag, cp.parts.length + 1, buf.length⟩]) := by
  constructor
  · have h := applySaves_partNumbers l (freshSession sid r0).1 (freshSession sid r0).2
    simpa [freshSession] using h
  · intro cp r buf etag
    rw [Save_ok_eq]

/-- C9 counterexample: a non-nil remote error that is not an
`awserr.Error` (the type assertion in the source fails) is swallowed by
`Complete` — it logs the success message and returns nil instead of
surfacing the error. -/
theorem complete_swallows_non_aws_error :
    (Complete (freshSession "S" { created := [], stored := [] }).1
        (CompleteRemoteResult.plainError "connection reset")).2 = none := rfl

/-- C9 (corrected): if the remote finalize call reports `NoSuchUpload`,
`Complete` logs a warning and returns success; any other error carrying an
AWS error code is surfaced to the caller; but an error that is not an
`awserr.Error` is treated like success and not propagated. -/
theorem complete_error_handling_amended (cp : LocalCheckpoint) (code : String)
    (h : code ≠ errCodeNoSuchUpload) :
    (Complete cp (CompleteRemoteResult.awsError errCodeNoSuchUpload)).2 = none
    ∧ (Complete cp (CompleteRemoteResult.awsError code)).2 = some code
    ∧ (∀ m, (Complete cp (CompleteRemoteResult.plainError m)).2 = none)
    ∧ (Complete cp CompleteRemoteResult.ok).2 = none := by
  refine ⟨by simp [Complete], by simp [Complete, h], fun m => rfl, rfl⟩

theorem complete_error_handling_amended_witness :
    ("AccessDenied" : String) ≠ errCodeNoSuchUpload
    ∧ (Complete (freshSession "S" { created := [], stored := [] }).1
        (CompleteRemoteResult.awsError "AccessDenied")).2 = some "AccessDenied" :=
  ⟨by decide,
   (complete_error_handling_amended
     (freshSession "S" { created := [], stored := [] }).1 "AccessDenied" (by decide)).2.1⟩

/-- C5 counterexample: a run over two files in which the second file's
upload fails is aborted — the failing file's goroutine calls
`Error.Panic(err)` (part_000:58), and an unrecovered panic in a goroutine
terminates the whole process, taking every sibling task with it.  The
claim states such a run is never aborted. -/
theorem one_failure_aborts_run :
    runAborted [none, some "upload failed"] = true := rfl

/-- C5 (corrected): a failure in any file's upload task is passed to
`log.Panic` inside that file's goroutine, which terminates the whole
process — aborting the overall run and all sibling tasks — rather than
being merely recorded while the orchestrator waits for the rest. -/
theorem failure_panics_process_amended (pre post : List (Option String)) (e : String) :
    runAborted (pre ++ some e :: post) = true := by
  simp [runAborted, goroutinePanics]

/-- C3 (code bug) evaluated at the failing input: when the checkpoint file
exists but is empty, `New` skips the parse branch (guard
`Stat().Size() != 0`, main.go:489) and returns the zero-value checkpoint:
no remote session is created (`created` unchanged), the `uploadID` is nil
and nothing is written to the checkpoint file — the claim (and the spec's
lifecycle) require a new session to be created and its id written as
line 1. -/
theorem new_empty_checkpoint_no_session :
    New (some []) "S" { created := [], stored := [] }
      = some ({ uploadID := none, parts := [], bufferedLines := [], durableLines := [] },
              { created := [], stored := [] }) := rfl

/-- C2 (code bug) evaluated at a scaled instance of the claim's scenario
(a 5-byte file with part size 2, standing in for 250 MiB with 100 MiB
parts): the driver hands `Save` the whole zero-padded read buffer
(part_000:80-89 never truncates `buffer` to the `n` bytes read), so every
recorded part size equals the configured part size — the run records
sizes [2, 2, 2] where the claim requires [2, 2, 1] — and the final object
carries the padding: [9, 8, 7, 6, 5, 0] instead of the source bytes
[9, 8, 7, 6, 5]. -/
theorem final_part_size_padded :
    (finalParts (uploadFile [9, 8, 7, 6, 5] 2 (fun _ => "E") none "S"
        { created := [], stored := [] })).map CompletedPart.size = [2, 2, 2]
    ∧ finalObject (uploadFile [9, 8, 7, 6, 5] 2 (fun _ => "E") none "S"
        { created := [], stored := [] }) = [9, 8, 7, 6, 5, 0] := ⟨rfl, rfl⟩

/-- C4 (confirmed): for every driver run that reaches completion — the
loop run with the driver's fuel from any starting checkpoint state
`(cp, r, pos)` — the part list `Complete` sends to the remote finalize
call is the full ordered list: every part already recorded in the
checkpoint before the run (`cp.parts`, the resumed parts) followed by
every part uploaded during the run, in upload order (the spec-side list
`specNewS3Parts`). -/
theorem complete_sends_resumed_plus_new_parts (file : List Nat) (s : Nat)
    (etags : Nat → String) (cp : LocalCheckpoint) (r : Remote) (pos : Nat)
    (res : CompleteRemoteResult) :
    (Complete (runLoopF file s etags (driverFuel file) (cp, r, pos)).1 res).1
      = toS3CompletedParts cp.parts
        ++ specNewS3Parts s etags file.length (driverFuel file) cp.parts.length pos :=
  runLoopF_s3parts file s etags (driverFuel file) cp r pos

/-- C1 (confirmed): for every source file and every crash point after K
parts have been durably checkpointed (the interrupted run is `runLoopF`
with fuel K from a fresh session; what survives is the durable checkpoint
file and the remote state), re-running the driver — open checkpoint, seek
to the resume offset, upload the remaining parts, complete — produces a
final remote object byte-identical to the object of an uninterrupted run
over the same file.  (Both runs equally carry the zero-padding of C2, so
the objects agree byte for byte.) -/
theorem resume_idempotence (file : List Nat) (s : Nat) (etags : Nat → String)
    (sid sid2 : String) (r0 : Remote) (K : Nat) :
    finalObject (resumedRun file s etags sid sid2 r0 K)
      = finalObject (uninterruptedRun file s etags sid r0) := by
  have hgood : GoodState file.length s sid (crashedState file s etags sid r0 K) :=
    goodState_run file s etags sid K _ (goodState_init file s sid r0)
  have hres := resume_from_good file s etags sid sid2
    (crashedState file s etags sid r0 K).1
    (crashedState file s etags sid r0 K).2.1
    (crashedState file s etags sid r0 K).2.2 hgood
  have key : resumedRun file s etags sid sid2 r0 K
      = uninterruptedRun file s etags sid r0 := by
    rw [resumedRun, uninterruptedRun]
    rw [hres]
    have hinit : uploadFile file s etags none sid r0
        = some ((runLoopF file s etags (driverFuel file)
            ((freshSession sid r0).1, (freshSession sid r0).2, 0)).1,
           (runLoopF file s etags (driverFuel file)
            ((freshSession sid r0).1, (freshSession sid r0).2, 0)).2.1) := rfl
    rw [hinit]
    have hchain : runLoopF file s etags (driverFuel file)
        ((crashedState file s etags sid r0 K).1,
         (crashedState file s etags sid r0 K).2.1,
         (crashedState file s etags sid r0 K).2.2)
        = runLoopF file s etags (driverFuel file)
            ((freshSession sid r0).1, (freshSession sid r0).2, 0) := by
      calc
        runLoopF file s etags (driverFuel file)
            ((crashedState file s etags sid r0 K).1,
             (crashedState file s etags sid r0 K).2.1,
             (crashedState file s etags sid r0 K).2.2)
            = runLoopF file s etags (driverFuel file)
                (runLoopF file s etags K
                  ((freshSession sid r0).1, (freshSession sid r0).2, 0)) := rfl
        _ = runLoopF file s etags (K + driverFuel file)
              ((freshSession sid r0).1, (freshSession sid r0).2, 0) :=
            (runLoopF_add file s etags K (driverFuel file) _).symm
        _ = runLoopF file s etags (driverFuel file + K)
              ((freshSession sid r0).1, (freshSession sid r0).2, 0) := by
            rw [Nat.add_comm]
        _ = runLoopF file s etags (driverFuel file)
              ((freshSession sid r0).1, (freshSession sid r0).2, 0) :=
            runLoopF_fuel_add file s etags K (driverFuel file)
              (freshSession sid r0).1 (freshSession sid r0).2 0
              (by simp [driverFuel])
    rw [hchain]
  rw [key]

end SMU
